import Mathlib

/-!
Verification of the clusterra-connect staged deployment orchestrator
(`install.py`, `uninstall.py`) against its natural-language specification.

The Python source is shallowly embedded: the `DeploymentStage` enum and the
`DeploymentState` dataclass become Lean inductives/structures, the
`StateManager` file-system effects become explicit operation lists, and the
`Orchestrator` stage handlers become pure functions from an environment
(modelling the external world: tofu exit codes, CloudFormation statuses,
SSM results, HTTP responses) to a result record carrying the outcome, the
final in-memory state, and a trace of the externally visible actions.
-/

-- ─────────────────────────────────────────────────────────────────────────
-- String helpers (Python's `needle in haystack` substring test)
-- ─────────────────────────────────────────────────────────────────────────

/-- Does the second list start with the first one? -/
def listStartsWith : List Char → List Char → Bool
  | [], _ => true
  | _ :: _, [] => false
  | a :: as, b :: bs => a = b && listStartsWith as bs

/-- Does the second list contain the first one as a contiguous sublist? -/
def listHasSub (needle : List Char) : List Char → Bool
  | [] => listStartsWith needle []
  | c :: rest => listStartsWith needle (c :: rest) || listHasSub needle rest

/-- Python's `needle in haystack` on strings. -/
def strContainsSub (haystack needle : String) : Bool :=
  listHasSub needle.toList haystack.toList

-- ─────────────────────────────────────────────────────────────────────────
-- DeploymentStage (install.py, class DeploymentStage)
-- ─────────────────────────────────────────────────────────────────────────

/-- The deployment stages, in the declaration order of the Python enum. -/
inductive DeploymentStage
  | NOT_STARTED
  | STAGE_1A_GENERATE_CONFIG
  | STAGE_1B_PCLUSTER_PENDING
  | STAGE_1C_PCLUSTER_COMPLETE
  | STAGE_2A_CONNECTIVITY
  | STAGE_2B_CONFIGURE_SLURMRESTD
  | STAGE_2C_VERIFY_SLURMRESTD
  | STAGE_3A_EVENTS
  | STAGE_4A_REGISTER
  | COMPLETE
  | FAILED
deriving DecidableEq, Repr

/-- The string value of each enum member (install.py lines 228-242). -/
def DeploymentStage.value : DeploymentStage → String
  | .NOT_STARTED => "not_started"
  | .STAGE_1A_GENERATE_CONFIG => "1a_generate_config"
  | .STAGE_1B_PCLUSTER_PENDING => "1b_pcluster_pending"
  | .STAGE_1C_PCLUSTER_COMPLETE => "1c_pcluster_complete"
  | .STAGE_2A_CONNECTIVITY => "2a_connectivity"
  | .STAGE_2B_CONFIGURE_SLURMRESTD => "2b_configure_slurmrestd"
  | .STAGE_2C_VERIFY_SLURMRESTD => "2c_verify_slurmrestd"
  | .STAGE_3A_EVENTS => "3a_events"
  | .STAGE_4A_REGISTER => "4a_register"
  | .COMPLETE => "complete"
  | .FAILED => "failed"

/-- Position of the stage in the enum declaration order (`list(DeploymentStage)`). -/
def stageIndex : DeploymentStage → Nat
  | .NOT_STARTED => 0
  | .STAGE_1A_GENERATE_CONFIG => 1
  | .STAGE_1B_PCLUSTER_PENDING => 2
  | .STAGE_1C_PCLUSTER_COMPLETE => 3
  | .STAGE_2A_CONNECTIVITY => 4
  | .STAGE_2B_CONFIGURE_SLURMRESTD => 5
  | .STAGE_2C_VERIFY_SLURMRESTD => 6
  | .STAGE_3A_EVENTS => 7
  | .STAGE_4A_REGISTER => 8
  | .COMPLETE => 9
  | .FAILED => 10

/-- The `DeploymentStage(value)` enum constructor: `some` member with that
value, or `none` (Python raises `ValueError` in that case). -/
def stageOfValue (v : String) : Option DeploymentStage :=
  if v = "not_started" then some .NOT_STARTED
  else if v = "1a_generate_config" then some .STAGE_1A_GENERATE_CONFIG
  else if v = "1b_pcluster_pending" then some .STAGE_1B_PCLUSTER_PENDING
  else if v = "1c_pcluster_complete" then some .STAGE_1C_PCLUSTER_COMPLETE
  else if v = "2a_connectivity" then some .STAGE_2A_CONNECTIVITY
  else if v = "2b_configure_slurmrestd" then some .STAGE_2B_CONFIGURE_SLURMRESTD
  else if v = "2c_verify_slurmrestd" then some .STAGE_2C_VERIFY_SLURMRESTD
  else if v = "3a_events" then some .STAGE_3A_EVENTS
  else if v = "4a_register" then some .STAGE_4A_REGISTER
  else if v = "complete" then some .COMPLETE
  else if v = "failed" then some .FAILED
  else none

-- ─────────────────────────────────────────────────────────────────────────
-- DeploymentState (install.py, @dataclass DeploymentState)
-- ─────────────────────────────────────────────────────────────────────────

/-- The persistent deployment state record, fields and defaults exactly as in
the Python dataclass. -/
structure DeploymentState where
  version : Nat := 1
  stage : DeploymentStage := .NOT_STARTED
  scenario : String := ""
  cluster_name : String := ""
  region : String := ""
  vpc_id : String := ""
  subnet_id : String := ""
  tenant_id : String := ""
  cluster_id : String := ""
  pcluster_config_path : String := ""
  slurm_jwt_secret_arn : String := ""
  head_node_instance_id : String := ""
  lattice_service_endpoint : String := ""
  lattice_service_network_id : String := ""
  iam_role_arn : String := ""
  iam_external_id : String := ""
  created_at : String := ""
  updated_at : String := ""
  error_message : String := ""
deriving DecidableEq, Repr

/-- `DeploymentState(created_at=...)`: the fresh state `_load` and `clear`
construct when there is nothing (usable) on disk. -/
def freshState (now : String) : DeploymentState := { created_at := now }

/-- `json.dumps(self.to_dict(), ...)`: the full serialized state written by
`save()`.  Every dataclass field appears; `stage` is serialized through its
string value as in `to_dict`. -/
def serializeState (s : DeploymentState) : String :=
  "\x7b\"version\": " ++ toString s.version ++
  ", \"stage\": \"" ++ s.stage.value ++
  "\", \"scenario\": \"" ++ s.scenario ++
  "\", \"cluster_name\": \"" ++ s.cluster_name ++
  "\", \"region\": \"" ++ s.region ++
  "\", \"vpc_id\": \"" ++ s.vpc_id ++
  "\", \"subnet_id\": \"" ++ s.subnet_id ++
  "\", \"tenant_id\": \"" ++ s.tenant_id ++
  "\", \"cluster_id\": \"" ++ s.cluster_id ++
  "\", \"pcluster_config_path\": \"" ++ s.pcluster_config_path ++
  "\", \"slurm_jwt_secret_arn\": \"" ++ s.slurm_jwt_secret_arn ++
  "\", \"head_node_instance_id\": \"" ++ s.head_node_instance_id ++
  "\", \"lattice_service_endpoint\": \"" ++ s.lattice_service_endpoint ++
  "\", \"lattice_service_network_id\": \"" ++ s.lattice_service_network_id ++
  "\", \"iam_role_arn\": \"" ++ s.iam_role_arn ++
  "\", \"iam_external_id\": \"" ++ s.iam_external_id ++
  "\", \"created_at\": \"" ++ s.created_at ++
  "\", \"updated_at\": \"" ++ s.updated_at ++
  "\", \"error_message\": \"" ++ s.error_message ++ "\"\x7d"

-- ─────────────────────────────────────────────────────────────────────────
-- from_dict / _load (install.py lines 281-316)
-- ─────────────────────────────────────────────────────────────────────────

/-- Python exceptions relevant to the state loading path. -/
inductive PyError
  | valueError (msg : String)
  | jsonDecodeError
  | keyError
  | fileNotFoundError
deriving DecidableEq, Repr

/-- Migration map for old stage names (install.py lines 284-293). -/
def stage_migration : List (String × String) :=
  [("stage_1_infra", "1a_generate_config"),
   ("stage_2_pcluster_pending", "1b_pcluster_pending"),
   ("stage_2_pcluster_complete", "1c_pcluster_complete"),
   ("stage_3_connect", "2a_connectivity"),
   ("stage_3_configure_slurmrestd", "2b_configure_slurmrestd"),
   ("stage_3_verify_slurmrestd", "2c_verify_slurmrestd"),
   ("stage_4_register", "4a_register"),
   ("stage_5_events", "3a_events")]

/-- A parsed JSON state payload: the recognized keys, each optionally
present.  (`from_dict` filters unrecognized keys out with
`{k: v for k, v in d.items() if k in cls.__dataclass_fields__}`, so unknown
keys of the stored object need not be modelled.) -/
structure RawDict where
  version : Option Nat := none
  stage : Option String := none
  scenario : Option String := none
  cluster_name : Option String := none
  region : Option String := none
  vpc_id : Option String := none
  subnet_id : Option String := none
  tenant_id : Option String := none
  cluster_id : Option String := none
  pcluster_config_path : Option String := none
  slurm_jwt_secret_arn : Option String := none
  head_node_instance_id : Option String := none
  lattice_service_endpoint : Option String := none
  lattice_service_network_id : Option String := none
  iam_role_arn : Option String := none
  iam_external_id : Option String := none
  created_at : Option String := none
  updated_at : Option String := none
  error_message : Option String := none
deriving DecidableEq, Repr

/-- `DeploymentState.from_dict`: read the raw stage (defaulting to
`"not_started"`), translate it through the migration map, and construct the
enum member — `DeploymentStage(migrated_stage)` raises `ValueError` when the
string is not a member value, modelled as `.error (.valueError _)`.
Remaining fields take the dataclass defaults when absent. -/
def DeploymentState.from_dict (d : RawDict) : Except PyError DeploymentState :=
  let raw_stage := d.stage.getD "not_started"
  let migrated_stage := (List.lookup raw_stage stage_migration).getD raw_stage
  match stageOfValue migrated_stage with
  | none => .error (.valueError migrated_stage)
  | some st =>
      .ok { version := d.version.getD 1
            stage := st
            scenario := d.scenario.getD ""
            cluster_name := d.cluster_name.getD ""
            region := d.region.getD ""
            vpc_id := d.vpc_id.getD ""
            subnet_id := d.subnet_id.getD ""
            tenant_id := d.tenant_id.getD ""
            cluster_id := d.cluster_id.getD ""
            pcluster_config_path := d.pcluster_config_path.getD ""
            slurm_jwt_secret_arn := d.slurm_jwt_secret_arn.getD ""
            head_node_instance_id := d.head_node_instance_id.getD ""
            lattice_service_endpoint := d.lattice_service_endpoint.getD ""
            lattice_service_network_id := d.lattice_service_network_id.getD ""
            iam_role_arn := d.iam_role_arn.getD ""
            iam_external_id := d.iam_external_id.getD ""
            created_at := d.created_at.getD ""
            updated_at := d.updated_at.getD ""
            error_message := d.error_message.getD "" }

/-- The content of the state file as seen by `StateManager._load`. -/
inductive FileContent
  | absent
  | corruptJson
  | goodJson (d : RawDict)
deriving DecidableEq, Repr

/-- `StateManager._load`: on a readable JSON payload call `from_dict`;
`except (json.JSONDecodeError, KeyError)` falls back to a fresh state, but a
`ValueError` (raised by the `DeploymentStage` constructor on an unknown
stage string) is NOT caught and propagates to the caller. -/
def StateManager.load (fc : FileContent) (now : String) :
    Except PyError DeploymentState :=
  match fc with
  | .absent => .ok (freshState now)
  | .corruptJson => .ok (freshState now)   -- json.loads raised JSONDecodeError: caught
  | .goodJson d =>
      match DeploymentState.from_dict d with
      | .ok s => .ok s
      | .error .jsonDecodeError => .ok (freshState now)
      | .error .keyError => .ok (freshState now)
      | .error e => .error e

-- ─────────────────────────────────────────────────────────────────────────
-- save / set_stage / set_failed / clear (install.py lines 318-339)
-- ─────────────────────────────────────────────────────────────────────────

/-- File-system operations performed by the StateManager. -/
inductive FsOp
  | write (path : String) (content : String)
  | rename (src : String) (dst : String)
  | unlinkFile (path : String)
deriving DecidableEq, Repr

/-- The fixed state file name (install.py line 195). -/
def STATE_FILE : String := ".clusterra-state.json"

/-- The in-memory effect of `save()`: refresh `updated_at`. -/
def saveS (s : DeploymentState) (now : String) : DeploymentState :=
  { s with updated_at := now }

/-- `StateManager.save`: set `updated_at` and `write_text` the full JSON
dump to the state file — a single direct write, no temp file, no rename. -/
def StateManager.save (s : DeploymentState) (now : String) :
    DeploymentState × List FsOp :=
  (saveS s now, [.write STATE_FILE (serializeState (saveS s now))])

/-- In-memory effect of `set_stage` (which then calls `save`). -/
def setStageS (s : DeploymentState) (st : DeploymentStage) (now : String) :
    DeploymentState :=
  saveS { s with stage := st } now

/-- In-memory effect of `set_failed` (which then calls `save`). -/
def setFailedS (s : DeploymentState) (err : String) (now : String) :
    DeploymentState :=
  saveS { s with error_message := err, stage := .FAILED } now

/-- `Path.unlink(missing_ok=...)` on the (single-file) modelled file system:
deleting an absent file errors unless `missing_ok` is set. -/
def pathUnlink (missing_ok : Bool) (fs : Option String) :
    Except PyError (Option String) :=
  match fs with
  | some _ => .ok none
  | none => if missing_ok then .ok none else .error .fileNotFoundError

/-- `StateManager.clear`: `self.state_file.unlink(missing_ok=True)` then
reset the in-memory state to a fresh one stamped with the current time. -/
def StateManager.clear (fs : Option String) (now : String) :
    Except PyError (Option String × DeploymentState) :=
  (pathUnlink true fs).map (fun fsMinus => (fsMinus, freshState now))

/-- An atomic replacement of `target`: write a distinct temp file, then
rename it over the target (the spec's "temp-file-plus-rename"). -/
def isAtomicReplacement (ops : List FsOp) (target : String) : Prop :=
  ∃ tmp content, tmp ≠ target ∧ ops = [.write tmp content, .rename tmp target]

-- ─────────────────────────────────────────────────────────────────────────
-- update(**kwargs) and Python attribute semantics (install.py lines 322-326)
-- ─────────────────────────────────────────────────────────────────────────

/-- The names of the dataclass fields of `DeploymentState`, as an inductive
so attribute access is total. -/
inductive FieldName
  | version | stage | scenario | cluster_name | region | vpc_id | subnet_id
  | tenant_id | cluster_id | pcluster_config_path | slurm_jwt_secret_arn
  | head_node_instance_id | lattice_service_endpoint
  | lattice_service_network_id | iam_role_arn | iam_external_id
  | created_at | updated_at | error_message
deriving DecidableEq, Repr

/-- The Python attribute name of each field. -/
def fieldToString : FieldName → String
  | .version => "version"
  | .stage => "stage"
  | .scenario => "scenario"
  | .cluster_name => "cluster_name"
  | .region => "region"
  | .vpc_id => "vpc_id"
  | .subnet_id => "subnet_id"
  | .tenant_id => "tenant_id"
  | .cluster_id => "cluster_id"
  | .pcluster_config_path => "pcluster_config_path"
  | .slurm_jwt_secret_arn => "slurm_jwt_secret_arn"
  | .head_node_instance_id => "head_node_instance_id"
  | .lattice_service_endpoint => "lattice_service_endpoint"
  | .lattice_service_network_id => "lattice_service_network_id"
  | .iam_role_arn => "iam_role_arn"
  | .iam_external_id => "iam_external_id"
  | .created_at => "created_at"
  | .updated_at => "updated_at"
  | .error_message => "error_message"

/-- Look a string up among the dataclass field names. -/
def fieldNameOfString (k : String) : Option FieldName :=
  if k = "version" then some .version
  else if k = "stage" then some .stage
  else if k = "scenario" then some .scenario
  else if k = "cluster_name" then some .cluster_name
  else if k = "region" then some .region
  else if k = "vpc_id" then some .vpc_id
  else if k = "subnet_id" then some .subnet_id
  else if k = "tenant_id" then some .tenant_id
  else if k = "cluster_id" then some .cluster_id
  else if k = "pcluster_config_path" then some .pcluster_config_path
  else if k = "slurm_jwt_secret_arn" then some .slurm_jwt_secret_arn
  else if k = "head_node_instance_id" then some .head_node_instance_id
  else if k = "lattice_service_endpoint" then some .lattice_service_endpoint
  else if k = "lattice_service_network_id" then some .lattice_service_network_id
  else if k = "iam_role_arn" then some .iam_role_arn
  else if k = "iam_external_id" then some .iam_external_id
  else if k = "created_at" then some .created_at
  else if k = "updated_at" then some .updated_at
  else if k = "error_message" then some .error_message
  else none

/-- A Python value assignable to a state attribute: the installer only ever
assigns strings to the string fields, a `DeploymentStage` to `stage`, and an
integer to `version`, so those are the shapes modelled. -/
inductive PyVal
  | str (s : String)
  | stageV (st : DeploymentStage)
  | natV (n : Nat)
deriving DecidableEq, Repr

/-- `getattr` on a dataclass field. -/
def getattrF (s : DeploymentState) : FieldName → PyVal
  | .version => .natV s.version
  | .stage => .stageV s.stage
  | .scenario => .str s.scenario
  | .cluster_name => .str s.cluster_name
  | .region => .str s.region
  | .vpc_id => .str s.vpc_id
  | .subnet_id => .str s.subnet_id
  | .tenant_id => .str s.tenant_id
  | .cluster_id => .str s.cluster_id
  | .pcluster_config_path => .str s.pcluster_config_path
  | .slurm_jwt_secret_arn => .str s.slurm_jwt_secret_arn
  | .head_node_instance_id => .str s.head_node_instance_id
  | .lattice_service_endpoint => .str s.lattice_service_endpoint
  | .lattice_service_network_id => .str s.lattice_service_network_id
  | .iam_role_arn => .str s.iam_role_arn
  | .iam_external_id => .str s.iam_external_id
  | .created_at => .str s.created_at
  | .updated_at => .str s.updated_at
  | .error_message => .str s.error_message

/-- `setattr` on a dataclass field.  A value whose shape does not match the
field (which the installer never produces) leaves the field unchanged in
this model. -/
def setattrF (s : DeploymentState) : FieldName → PyVal → DeploymentState
  | .version, .natV n => { s with version := n }
  | .stage, .stageV st => { s with stage := st }
  | .scenario, .str v => { s with scenario := v }
  | .cluster_name, .str v => { s with cluster_name := v }
  | .region, .str v => { s with region := v }
  | .vpc_id, .str v => { s with vpc_id := v }
  | .subnet_id, .str v => { s with subnet_id := v }
  | .tenant_id, .str v => { s with tenant_id := v }
  | .cluster_id, .str v => { s with cluster_id := v }
  | .pcluster_config_path, .str v => { s with pcluster_config_path := v }
  | .slurm_jwt_secret_arn, .str v => { s with slurm_jwt_secret_arn := v }
  | .head_node_instance_id, .str v => { s with head_node_instance_id := v }
  | .lattice_service_endpoint, .str v => { s with lattice_service_endpoint := v }
  | .lattice_service_network_id, .str v => { s with lattice_service_network_id := v }
  | .iam_role_arn, .str v => { s with iam_role_arn := v }
  | .iam_external_id, .str v => { s with iam_external_id := v }
  | .created_at, .str v => { s with created_at := v }
  | .updated_at, .str v => { s with updated_at := v }
  | .error_message, .str v => { s with error_message := v }
  | _, _ => s

/-- Methods defined on the `DeploymentState` class.  `hasattr` is true for
these as well, even though they are not dataclass fields.  (Inherited dunder
attributes are not modelled; the installer never names them.) -/
def classMethodNames : List String := ["to_dict", "from_dict"]

/-- A `DeploymentState` Python object: its dataclass fields plus any
instance attributes later `setattr` created that shadow class attributes. -/
structure PyState where
  fields : DeploymentState
  extra : List (String × PyVal) := []
deriving DecidableEq, Repr

/-- `hasattr(self.state, k)`: true for dataclass fields and for class-level
attributes such as the `to_dict`/`from_dict` methods. -/
def pyHasattr (k : String) : Bool :=
  (fieldNameOfString k).isSome || classMethodNames.contains k

/-- `setattr(self.state, k, v)` (only reached under the `hasattr` guard):
a field name updates the field; a class-attribute name creates/overwrites a
shadowing instance attribute. -/
def pySetattr (o : PyState) (k : String) (v : PyVal) : PyState :=
  match fieldNameOfString k with
  | some f => { o with fields := setattrF o.fields f v }
  | none => { o with extra := (k, v) :: o.extra.filter (fun p => p.1 ≠ k) }

/-- `StateManager.update(**kwargs)`: for each keyword argument, assign it if
`hasattr` holds, silently skip it otherwise; then `save()` (which refreshes
`updated_at` and writes the dataclass fields — `asdict` ignores the shadow
attributes). -/
def StateManager.update (o : PyState) (kwargs : List (String × PyVal))
    (now : String) : PyState × List FsOp :=
  let o1 := kwargs.foldl
    (fun acc kv => if pyHasattr kv.1 then pySetattr acc kv.1 kv.2 else acc) o
  let saved := StateManager.save o1.fields now
  ({ o1 with fields := saved.1 }, saved.2)

-- ─────────────────────────────────────────────────────────────────────────
-- Cluster status mapping and the stage-2 wait loop
-- (install.py, get_pcluster_status_via_boto3 and _run_stage_2_wait)
-- ─────────────────────────────────────────────────────────────────────────

/-- Map a CloudFormation `StackStatus` to the pcluster status vocabulary
(install.py lines 420-427): substring tests, in this order, defaulting to
`UNKNOWN`. -/
def mapStackStatus (stack_status : String) : String :=
  if strContainsSub stack_status "CREATE_COMPLETE" then "CREATE_COMPLETE"
  else if strContainsSub stack_status "CREATE_IN_PROGRESS" then "CREATE_IN_PROGRESS"
  else if strContainsSub stack_status "CREATE_FAILED" then "CREATE_FAILED"
  else "UNKNOWN"

/-- Outcome of the cluster-status wait over a finite window of polls. -/
inductive WaitOutcome
  | success
  | hardFailure
  | stillPolling
deriving DecidableEq, Repr

/-- Result of the wait: outcome, number of status polls made, and number of
30-second sleeps taken. -/
structure WaitResult where
  outcome : WaitOutcome
  polls : Nat
  sleeps : Nat
deriving DecidableEq, Repr

/-- The body of `_run_stage_2_wait`'s `while True` loop, run over a finite
list of poll observations (each `none` when `get_pcluster_status_via_boto3`
returned `None`, else `some` of the raw CloudFormation stack status).  Each
iteration polls once; `CREATE_COMPLETE` returns success, `CREATE_FAILED`
returns a hard failure, and every other observation — including `None` and
statuses mapped to `UNKNOWN` — sleeps 30 seconds and polls again.  If the
observation window is exhausted the loop is still polling. -/
def clusterStatusWaitGo : List (Option String) → Nat → Nat → WaitResult
  | [], p, sl => { outcome := .stillPolling, polls := p, sleeps := sl }
  | ob :: rest, p, sl =>
    match ob with
    | none => clusterStatusWaitGo rest (p + 1) (sl + 1)
    | some raw =>
        let cluster_status := mapStackStatus raw
        if cluster_status = "CREATE_COMPLETE" then
          { outcome := .success, polls := p + 1, sleeps := sl }
        else if cluster_status = "CREATE_FAILED" then
          { outcome := .hardFailure, polls := p + 1, sleeps := sl }
        else
          -- CREATE_IN_PROGRESS / CREATING and the unknown-status branch
          -- both sleep 30s and continue
          clusterStatusWaitGo rest (p + 1) (sl + 1)

/-- The cluster-status wait, started with zero polls and sleeps. -/
def clusterStatusWait (obs : List (Option String)) : WaitResult :=
  clusterStatusWaitGo obs 0 0

-- ─────────────────────────────────────────────────────────────────────────
-- Orchestrator execution model (install.py, class Orchestrator)
-- ─────────────────────────────────────────────────────────────────────────

/-- Externally visible actions a run performs.  `setStagePersist` and
`setFailedPersist` are the durable stage writes done through the
StateManager; `updatePersist` is a durable field write (`update(...)`).
`dissociateServiceNetwork` is the spec's compensating network-dissociation
action: no code path of the repository performs it, the constructor exists
so its absence from traces can be stated.  `tofuDestroy` is emitted by the
uninstaller's destroy phase. -/
inductive Act
  | tofuInit
  | tofuApply (tofuModule : String)
  | describeStacks
  | pclusterCreate (cluster_name : String) (config_path : String)
  | pollClusterStatus
  | ssmSetup
  | ssmVerify
  | apiRegister (url : String)
  | updatePersist
  | setStagePersist (st : DeploymentStage)
  | setFailedPersist (msg : String)
  | dissociateServiceNetwork
  | tofuDestroy
deriving DecidableEq, Repr

/-- The `clusterra_onboarding` tofu output object, as read through
`outputs.get('clusterra_onboarding', {}).get('value', {})`.  Missing keys
default to the empty string (the `.get(k, '')` reads); `slurm_jwt_secret_arn`
is read with a bare `.get` and so can be absent (`None`). -/
structure TofuOnboarding where
  lattice_service_endpoint : String := ""
  lattice_service_network_id : String := ""
  role_arn : String := ""
  external_id : String := ""
  slurm_jwt_secret_arn : Option String := none
  aws_account_id : String := ""
  slurm_port : Nat := 6830
deriving DecidableEq, Repr

/-- Result of the `pcluster create-cluster` subprocess. -/
inductive CreateCmdResult
  | cmdOk
  | errAlreadyExists
  | errOther (stderr : String)
deriving DecidableEq, Repr

/-- Outcome of the slurmrestd verification attempt in `_run_stage_3_verify`:
listening (port 6830 seen), not listening with the user choosing to continue
or to abort, the SSM command itself failing, the five polls ending without a
terminal status (falls through and proceeds), or an exception (verification
skipped with a warning, proceeds). -/
inductive SsmVerifyOutcome
  | listening
  | notListeningContinue
  | notListeningAbort
  | cmdFailed
  | inconclusive
  | errSkipped
deriving DecidableEq, Repr

/-- The registration API interaction: a raised request exception, or an HTTP
response with its status code and (for 201) the returned cluster id. -/
inductive RegisterResponse
  | exc
  | resp (status : Nat) (cluster_id : String)
deriving DecidableEq, Repr

/-- The external world as the orchestrator observes it during one run. -/
structure Env where
  now : String := "t"
  apiUrl : String := "https://api.clusterra.cloud"
  tofuInitOk : Bool := true
  applyParallelclusterOk : Bool := true
  applyConnectivityOk : Bool := true
  applyEventsOk : Bool := true
  /-- `tofu output pcluster_config_path` value, `none`/empty when absent. -/
  configPathOutput : Option String := none
  onboarding : TofuOnboarding := {}
  /-- `describe_stacks` result for the create-stage idempotency probe:
  `none` when the stack does not exist (or the call fails), else the raw
  CloudFormation stack status. -/
  existingStack : Option String := none
  createResult : CreateCmdResult := .cmdOk
  /-- The stage-2 wait loop's poll observations. -/
  waitObs : List (Option String) := []
  ssmSetupOk : Bool := true
  verifyOutcome : SsmVerifyOutcome := .listening
  registerResponse : RegisterResponse := .exc
deriving DecidableEq, Repr

/-- Outcome of a stage handler / of `run`: the boolean it returns, or
`pending` when the modelled observation window ended inside an unbounded
poll loop (the real loop would still be polling). -/
inductive RunOutcome
  | success
  | failure
  | pending
deriving DecidableEq, Repr

/-- Result of a stage handler: outcome, final in-memory state, and the trace
of externally visible actions in execution order. -/
structure StepResult where
  outcome : RunOutcome
  state : DeploymentState
  trace : List Act
deriving DecidableEq, Repr

/-- Prefix a result's trace with earlier actions. -/
def thenRun (pre : List Act) (r : StepResult) : StepResult :=
  { r with trace := pre ++ r.trace }

/-- `_run_stage_register` (install.py lines 952-1003).  No tenant id:
registration is skipped and the deployment is marked COMPLETE.  Dry run:
marked COMPLETE.  Otherwise POST the payload (built from live tofu outputs);
a 201 stores the returned cluster id; any other status and any request
exception are reported as warnings only — the stage still persists COMPLETE
and returns success. -/
def Orchestrator.runStageRegister (env : Env) (dry_run : Bool)
    (s : DeploymentState) : StepResult :=
  if s.tenant_id = "" then
    { outcome := .success, state := setStageS s .COMPLETE env.now,
      trace := [.setStagePersist .COMPLETE] }
  else if dry_run then
    { outcome := .success, state := setStageS s .COMPLETE env.now,
      trace := [.setStagePersist .COMPLETE] }
  else
    let url := env.apiUrl ++ "/v1/clusters/connect/" ++ s.tenant_id
    match env.registerResponse with
    | .resp status cid =>
        if status = 201 then
          let s1 := saveS { s with cluster_id := cid } env.now
          { outcome := .success, state := setStageS s1 .COMPLETE env.now,
            trace := [.apiRegister url, .updatePersist, .setStagePersist .COMPLETE] }
        else
          { outcome := .success, state := setStageS s .COMPLETE env.now,
            trace := [.apiRegister url, .setStagePersist .COMPLETE] }
    | .exc =>
        { outcome := .success, state := setStageS s .COMPLETE env.now,
          trace := [.apiRegister url, .setStagePersist .COMPLETE] }

/-- `_run_stage_events` (install.py lines 1005-1039).  Without both a
cluster id and a tenant id the events module is skipped.  (The local
terraform.tfvars bookkeeping writes are not traced.) -/
def Orchestrator.runStageEvents (env : Env) (dry_run : Bool)
    (s : DeploymentState) : StepResult :=
  if s.cluster_id = "" ∨ s.tenant_id = "" then
    thenRun [.setStagePersist .STAGE_4A_REGISTER]
      (Orchestrator.runStageRegister env dry_run
        (setStageS s .STAGE_4A_REGISTER env.now))
  else if dry_run then
    { outcome := .success, state := setStageS s .STAGE_4A_REGISTER env.now,
      trace := [.setStagePersist .STAGE_4A_REGISTER] }
  else if env.applyEventsOk then
    thenRun [.tofuApply "events", .setStagePersist .STAGE_4A_REGISTER]
      (Orchestrator.runStageRegister env dry_run
        (setStageS s .STAGE_4A_REGISTER env.now))
  else
    { outcome := .failure,
      state := setFailedS s "tofu apply (events) failed" env.now,
      trace := [.tofuApply "events", .setFailedPersist "tofu apply (events) failed"] }

/-- `_run_stage_3_verify` (install.py lines 838-889).  With no head-node id
the check is skipped.  A clean check, an inconclusive check, a skipped-
by-exception check, and a failed check the user overrides all proceed to the
events stage; a failed SSM command or a user abort return failure without
persisting anything (note: no `set_failed` on these paths). -/
def Orchestrator.runStage3Verify (env : Env) (dry_run : Bool)
    (s : DeploymentState) : StepResult :=
  if dry_run then
    { outcome := .success, state := setStageS s .STAGE_3A_EVENTS env.now,
      trace := [.setStagePersist .STAGE_3A_EVENTS] }
  else if s.head_node_instance_id = "" then
    thenRun [.setStagePersist .STAGE_3A_EVENTS]
      (Orchestrator.runStageEvents env dry_run
        (setStageS s .STAGE_3A_EVENTS env.now))
  else
    match env.verifyOutcome with
    | .notListeningAbort => { outcome := .failure, state := s, trace := [.ssmVerify] }
    | .cmdFailed => { outcome := .failure, state := s, trace := [.ssmVerify] }
    | _ =>
        thenRun [.ssmVerify, .setStagePersist .STAGE_3A_EVENTS]
          (Orchestrator.runStageEvents env dry_run
            (setStageS s .STAGE_3A_EVENTS env.now))

/-- `_run_stage_3_configure` (install.py lines 820-836).  The SSM setup runs
only when the jwt-secret output is truthy AND the head-node id is non-empty;
if it fails the stage persists FAILED and returns failure — no compensating
rollback of the already-created connectivity resources is invoked. -/
def Orchestrator.runStage3Configure (env : Env) (dry_run : Bool)
    (s : DeploymentState) : StepResult :=
  if dry_run then
    { outcome := .success,
      state := setStageS s .STAGE_2C_VERIFY_SLURMRESTD env.now,
      trace := [.setStagePersist .STAGE_2C_VERIFY_SLURMRESTD] }
  else
    let jwtTruthy : Bool := match env.onboarding.slurm_jwt_secret_arn with
                            | some j => j != ""
                            | none => false
    if jwtTruthy && s.head_node_instance_id != "" then
      if env.ssmSetupOk then
        thenRun [.ssmSetup, .setStagePersist .STAGE_2C_VERIFY_SLURMRESTD]
          (Orchestrator.runStage3Verify env dry_run
            (setStageS s .STAGE_2C_VERIFY_SLURMRESTD env.now))
      else
        { outcome := .failure,
          state := setFailedS s "slurmrestd configuration failed" env.now,
          trace := [.ssmSetup, .setFailedPersist "slurmrestd configuration failed"] }
    else
      thenRun [.setStagePersist .STAGE_2C_VERIFY_SLURMRESTD]
        (Orchestrator.runStage3Verify env dry_run
          (setStageS s .STAGE_2C_VERIFY_SLURMRESTD env.now))

/-- `_run_stage_3_connect` (install.py lines 784-818).  On a successful
`tofu apply` of the connectivity module the four onboarding outputs are
stored into the state (empty strings when the outputs are missing), the
stage advances and configuration is chained.  (The local terraform.tfvars
append is not traced.) -/
def Orchestrator.runStage3Connect (env : Env) (dry_run : Bool)
    (s : DeploymentState) : StepResult :=
  if dry_run then
    { outcome := .success,
      state := setStageS s .STAGE_2B_CONFIGURE_SLURMRESTD env.now,
      trace := [.setStagePersist .STAGE_2B_CONFIGURE_SLURMRESTD] }
  else if env.applyConnectivityOk then
    let s1 := saveS { s with
      lattice_service_endpoint := env.onboarding.lattice_service_endpoint,
      lattice_service_network_id := env.onboarding.lattice_service_network_id,
      iam_role_arn := env.onboarding.role_arn,
      iam_external_id := env.onboarding.external_id } env.now
    thenRun [.tofuApply "connectivity", .updatePersist,
             .setStagePersist .STAGE_2B_CONFIGURE_SLURMRESTD]
      (Orchestrator.runStage3Configure env dry_run
        (setStageS s1 .STAGE_2B_CONFIGURE_SLURMRESTD env.now))
  else
    { outcome := .failure,
      state := setFailedS s "tofu apply (connectivity) failed" env.now,
      trace := [.tofuApply "connectivity",
                .setFailedPersist "tofu apply (connectivity) failed"] }

/-- `_run_stage_2_wait` (install.py lines 734-782): run the poll loop; on
`CREATE_COMPLETE` persist the stage advance first, then chain to the
connectivity stage (with `dry_run=False` as in the source); on
`CREATE_FAILED` persist FAILED and stop. -/
def Orchestrator.runStage2Wait (env : Env) (s : DeploymentState) : StepResult :=
  let w := clusterStatusWait env.waitObs
  let pollActs := List.replicate w.polls Act.pollClusterStatus
  match w.outcome with
  | .success =>
      thenRun (pollActs ++ [.setStagePersist .STAGE_1C_PCLUSTER_COMPLETE])
        (Orchestrator.runStage3Connect env false
          (setStageS s .STAGE_1C_PCLUSTER_COMPLETE env.now))
  | .hardFailure =>
      { outcome := .failure,
        state := setFailedS s "ParallelCluster creation failed" env.now,
        trace := pollActs ++ [.setFailedPersist "ParallelCluster creation failed"] }
  | .stillPolling =>
      { outcome := .pending, state := s, trace := pollActs }

/-- `_run_stage_2_create` (install.py lines 671-732).  With no config path
the stage returns failure immediately.  Otherwise the idempotency probe
(`get_pcluster_status_via_boto3`) runs first: an existing cluster with
status `CREATE_COMPLETE` skips creation, persists the advance and chains to
connectivity; `CREATE_IN_PROGRESS`/`CREATING` goes straight to the wait;
`CREATE_FAILED` persists FAILED; any other status (`UNKNOWN`) falls through
to the create command, as does an absent stack.  A failed create whose
stderr mentions "already exists" still proceeds to the wait. -/
def Orchestrator.runStage2Create (env : Env) (s : DeploymentState) : StepResult :=
  if s.pcluster_config_path = "" then
    { outcome := .failure, state := s, trace := [] }
  else
    let createCmd : StepResult :=
      match env.createResult with
      | .cmdOk =>
          thenRun [.describeStacks,
                   .pclusterCreate s.cluster_name s.pcluster_config_path]
            (Orchestrator.runStage2Wait env s)
      | .errAlreadyExists =>
          thenRun [.describeStacks,
                   .pclusterCreate s.cluster_name s.pcluster_config_path]
            (Orchestrator.runStage2Wait env s)
      | .errOther stderr =>
          { outcome := .failure,
            state := setFailedS s ("pcluster create failed: " ++ stderr) env.now,
            trace := [.describeStacks,
                      .pclusterCreate s.cluster_name s.pcluster_config_path,
                      .setFailedPersist ("pcluster create failed: " ++ stderr)] }
    match env.existingStack with
    | some raw =>
        let cluster_status := mapStackStatus raw
        if cluster_status = "CREATE_COMPLETE" then
          thenRun [.describeStacks, .setStagePersist .STAGE_1C_PCLUSTER_COMPLETE]
            (Orchestrator.runStage3Connect env false
              (setStageS s .STAGE_1C_PCLUSTER_COMPLETE env.now))
        else if cluster_status = "CREATE_IN_PROGRESS" ∨ cluster_status = "CREATING" then
          thenRun [.describeStacks] (Orchestrator.runStage2Wait env s)
        else if cluster_status = "CREATE_FAILED" then
          { outcome := .failure,
            state := setFailedS s "Cluster creation previously failed" env.now,
            trace := [.describeStacks,
                      .setFailedPersist "Cluster creation previously failed"] }
        else
          createCmd
    | none => createCmd

/-- `_run_stage_1` (install.py lines 618-669).  New-cluster scenario:
`tofu init`, apply the parallelcluster module, record the generated config
path (falling back to the conventional path when the output is missing or
empty), advance and chain to creation.  Any other scenario: `tofu init`,
advance directly to connectivity and chain to it. -/
def Orchestrator.runStage1 (env : Env) (dry_run : Bool)
    (s : DeploymentState) : StepResult :=
  if s.scenario = "new" then
    if dry_run then
      { outcome := .success,
        state := setStageS s .STAGE_1B_PCLUSTER_PENDING env.now,
        trace := [.setStagePersist .STAGE_1B_PCLUSTER_PENDING] }
    else if ¬ env.tofuInitOk then
      { outcome := .failure, state := setFailedS s "tofu init failed" env.now,
        trace := [.tofuInit, .setFailedPersist "tofu init failed"] }
    else if ¬ env.applyParallelclusterOk then
      { outcome := .failure,
        state := setFailedS s "Failed to generate pcluster config" env.now,
        trace := [.tofuInit, .tofuApply "parallelcluster",
                  .setFailedPersist "Failed to generate pcluster config"] }
    else
      let config_path :=
        match env.configPathOutput with
        | some p => if p = "" then "./generated/" ++ s.cluster_name ++ "-config.yaml" else p
        | none => "./generated/" ++ s.cluster_name ++ "-config.yaml"
      let s1 := saveS { s with pcluster_config_path := config_path } env.now
      thenRun [.tofuInit, .tofuApply "parallelcluster", .updatePersist,
               .setStagePersist .STAGE_1B_PCLUSTER_PENDING]
        (Orchestrator.runStage2Create env
          (setStageS s1 .STAGE_1B_PCLUSTER_PENDING env.now))
  else
    if dry_run then
      { outcome := .success,
        state := setStageS s .STAGE_2A_CONNECTIVITY env.now,
        trace := [.setStagePersist .STAGE_2A_CONNECTIVITY] }
    else if ¬ env.tofuInitOk then
      { outcome := .failure, state := setFailedS s "tofu init failed" env.now,
        trace := [.tofuInit, .setFailedPersist "tofu init failed"] }
    else
      thenRun [.tofuInit, .setStagePersist .STAGE_2A_CONNECTIVITY]
        (Orchestrator.runStage3Connect env dry_run
          (setStageS s .STAGE_2A_CONNECTIVITY env.now))

/-- `Orchestrator.run` (install.py lines 575-616): dispatch on the current
stage.  A COMPLETE state reports success immediately; from FAILED the source
prompts the user and possibly calls `_retry_from_last_good_stage` — modelled
here as returning failure without actions (the retry path is
`Orchestrator.retryTarget` below, the explicitly exempted regression). -/
def Orchestrator.run (env : Env) (dry_run : Bool)
    (s : DeploymentState) : StepResult :=
  match s.stage with
  | .NOT_STARTED => Orchestrator.runStage1 env dry_run s
  | .STAGE_1A_GENERATE_CONFIG => Orchestrator.runStage1 env dry_run s
  | .STAGE_1B_PCLUSTER_PENDING => Orchestrator.runStage2Create env s
  | .STAGE_1C_PCLUSTER_COMPLETE => Orchestrator.runStage3Connect env dry_run s
  | .STAGE_2A_CONNECTIVITY => Orchestrator.runStage3Connect env dry_run s
  | .STAGE_2B_CONFIGURE_SLURMRESTD => Orchestrator.runStage3Configure env dry_run s
  | .STAGE_2C_VERIFY_SLURMRESTD => Orchestrator.runStage3Verify env dry_run s
  | .STAGE_3A_EVENTS => Orchestrator.runStageEvents env dry_run s
  | .STAGE_4A_REGISTER => Orchestrator.runStageRegister env dry_run s
  | .COMPLETE => { outcome := .success, state := s, trace := [] }
  | .FAILED => { outcome := .failure, state := s, trace := [] }

/-- `_retry_from_last_good_stage` (install.py lines 1041-1059): the stage the
orchestrator regresses to from FAILED, inferred from the populated output
fields.  This is the explicitly exempted backward transition. -/
def Orchestrator.retryTarget (s : DeploymentState) : DeploymentStage :=
  if s.cluster_id ≠ "" then .STAGE_3A_EVENTS
  else if s.lattice_service_endpoint ≠ "" then .STAGE_3A_EVENTS
  else if s.head_node_instance_id ≠ "" then .STAGE_2A_CONNECTIVITY
  else if s.pcluster_config_path ≠ "" then .STAGE_1B_PCLUSTER_PENDING
  else .STAGE_1A_GENERATE_CONFIG

-- ─────────────────────────────────────────────────────────────────────────
-- Uninstaller (uninstall.py, destroy_tofu_resources)
-- ─────────────────────────────────────────────────────────────────────────

/-- `destroy_tofu_resources` (uninstall.py lines 170-184): in a dry run it
only prints; otherwise it runs a single `tofu destroy -auto-approve` — there
is no separate service-network dissociation action before it. -/
def destroy_tofu_resources (dry_run : Bool) : List Act :=
  if dry_run then [] else [.tofuDestroy]

-- ─────────────────────────────────────────────────────────────────────────
-- Trace observers
-- ─────────────────────────────────────────────────────────────────────────

/-- The sequence of durable stage values written during a trace
(`set_stage` writes its argument, `set_failed` writes FAILED). -/
def stageWrites : List Act → List DeploymentStage
  | [] => []
  | .setStagePersist st :: rest => st :: stageWrites rest
  | .setFailedPersist _ :: rest => .FAILED :: stageWrites rest
  | _ :: rest => stageWrites rest

/-- `incFromB n l`: the stage indices of `l` are strictly increasing and all
strictly greater than `n`. -/
def incFromB (n : Nat) : List DeploymentStage → Bool
  | [] => true
  | st :: rest => decide (n < stageIndex st) && incFromB (stageIndex st) rest

/-- Is this action the mutating `pcluster create-cluster` call? -/
def isPClusterCreate : Act → Bool
  | .pclusterCreate _ _ => true
  | _ => false

/-- Is this action the spec's service-network dissociation? -/
def isDissociate : Act → Bool
  | .dissociateServiceNetwork => true
  | _ => false

/-- Is this action an infrastructure destroy? -/
def isDestroy : Act → Bool
  | .tofuDestroy => true
  | _ => false

/-- A trace free of the mutating create-cluster call. -/
def noCreateB (t : List Act) : Bool :=
  t.all (fun a => ! isPClusterCreate a)

/-- Is this action the registration POST? -/
def isApiRegister : Act → Bool
  | .apiRegister _ => true
  | _ => false

/-- Two states agree on the connectivity-stage output fields (the fields the
REGISTER stage's claim is about) and on the head-node identifier. -/
def connectOutputsEq (a b : DeploymentState) : Prop :=
  a.lattice_service_endpoint = b.lattice_service_endpoint ∧
  a.lattice_service_network_id = b.lattice_service_network_id ∧
  a.iam_role_arn = b.iam_role_arn ∧
  a.iam_external_id = b.iam_external_id ∧
  a.head_node_instance_id = b.head_node_instance_id

-- ─────────────────────────────────────────────────────────────────────────
-- Concrete inputs used by witnesses and counterexamples
-- ─────────────────────────────────────────────────────────────────────────

/-- An environment whose create-stage probe reports an existing
`CREATE_COMPLETE` stack. -/
def envProbeComplete : Env := { existingStack := some "CREATE_COMPLETE" }

/-- A state resuming at the cluster-creation stage with a generated config. -/
def sPendingCfg : DeploymentState :=
  { stage := .STAGE_1B_PCLUSTER_PENDING, cluster_name := "c",
    pcluster_config_path := "cfg" }

/-- An environment whose registration API answers 500. -/
def envRegister500 : Env := { registerResponse := .resp 500 "" }

/-- A state at the registration stage with a tenant configured. -/
def sRegisterTenant : DeploymentState :=
  { stage := .STAGE_4A_REGISTER, tenant_id := "ten_x" }

/-- An environment with empty tofu onboarding outputs whose registration API
answers 201. -/
def envEmptyOutputs201 : Env := { registerResponse := .resp 201 "clus0001" }

/-- A state resuming after cluster creation with a tenant configured. -/
def sConnectTenant : DeploymentState :=
  { stage := .STAGE_1C_PCLUSTER_COMPLETE, tenant_id := "ten_x",
    cluster_name := "c" }

/-- An environment with non-empty connectivity onboarding outputs whose
registration API answers 201. -/
def envGoodOutputs : Env :=
  { onboarding :=
      { lattice_service_endpoint := "ep"
        lattice_service_network_id := "net"
        role_arn := "role"
        external_id := "ext" }
    registerResponse := .resp 201 "clus1" }

/-- An environment where the slurmrestd SSM setup fails, with the jwt-secret
output present. -/
def envSsmFail : Env :=
  { onboarding := { slurm_jwt_secret_arn := some "arn:jwt" }
    ssmSetupOk := false }

/-- A state at the daemon-configuration stage with connectivity already
complete (head node known, connectivity outputs stored). -/
def sConfigureHead : DeploymentState :=
  { stage := .STAGE_2B_CONFIGURE_SLURMRESTD, head_node_instance_id := "i-0abc",
    lattice_service_endpoint := "ep" }

/-- An environment that fails the connectivity apply. -/
def envConnectFail : Env := { applyConnectivityOk := false }

/-- A state at the connectivity stage. -/
def sConnectivity : DeploymentState := { stage := .STAGE_2A_CONNECTIVITY }

-- ─────────────────────────────────────────────────────────────────────────
-- Helper lemmas
-- ─────────────────────────────────────────────────────────────────────────

theorem stageWrites_append (a b : List Act) :
    stageWrites (a ++ b) = stageWrites a ++ stageWrites b := by
  induction a with
  | nil => rfl
  | cons hd tl ih => cases hd <;> simp [stageWrites, ih]

theorem noCreateB_append (a b : List Act) :
    noCreateB (a ++ b) = (noCreateB a && noCreateB b) := by
  simp [noCreateB, List.all_append]

theorem incFromB_mono {m n : Nat} (h : m ≤ n) :
    ∀ l : List DeploymentStage, incFromB n l = true → incFromB m l = true := by
  intro l hl
  cases l with
  | nil => rfl
  | cons st rest =>
      simp [incFromB] at hl ⊢
      exact ⟨lt_of_le_of_lt h hl.1, hl.2⟩

theorem waitGo_step_cont (raw : String)
    (h1 : mapStackStatus raw ≠ "CREATE_COMPLETE")
    (h2 : mapStackStatus raw ≠ "CREATE_FAILED")
    (rest : List (Option String)) (p sl : Nat) :
    clusterStatusWaitGo (some raw :: rest) p sl
      = clusterStatusWaitGo rest (p + 1) (sl + 1) := by
  simp [clusterStatusWaitGo, h1, h2]

theorem waitGo_inprogress (n : Nat) (p sl : Nat) :
    clusterStatusWaitGo
      (List.replicate n (some "CREATE_IN_PROGRESS") ++ [some "CREATE_COMPLETE"]) p sl
      = { outcome := .success, polls := p + n + 1, sleeps := sl + n } := by
  induction n generalizing p sl with
  | zero =>
      simp [clusterStatusWaitGo]
      rw [show mapStackStatus "CREATE_COMPLETE" = "CREATE_COMPLETE" from rfl]
      simp
  | succ k ih =>
      rw [List.replicate_succ, List.cons_append,
          waitGo_step_cont "CREATE_IN_PROGRESS" (by decide) (by decide), ih]
      have h1 : p + 1 + k + 1 = p + (k + 1) + 1 := by omega
      have h2 : sl + 1 + k = sl + (k + 1) := by omega
      rw [h1, h2]

-- ─────────────────────────────────────────────────────────────────────────
-- Claim C2
-- ─────────────────────────────────────────────────────────────────────────

/-- Claim C2 (code bug evidence): loading a stored payload whose stage
string `"bogus_stage"` is neither a current stage identifier nor a key of
the migration map does NOT fall back to a fresh state — `from_dict` raises
`ValueError` from the `DeploymentStage` constructor and `_load` only catches
`JSONDecodeError` and `KeyError`, so the error propagates.  A corrupt
(non-JSON) payload, by contrast, does fall back to a fresh NOT_STARTED
state, and a legacy stage string in the migration map is translated. -/
theorem C2_unknown_stage_crashes :
    StateManager.load (.goodJson { stage := some "bogus_stage" }) "t0"
      = .error (.valueError "bogus_stage") ∧
    StateManager.load .corruptJson "t0" = .ok (freshState "t0") ∧
    StateManager.load (.goodJson { stage := some "stage_3_connect" }) "t0"
      = .ok { stage := .STAGE_2A_CONNECTIVITY } := by
  refine ⟨?_, rfl, ?_⟩ <;> rfl

-- ─────────────────────────────────────────────────────────────────────────
-- Claim C4
-- ─────────────────────────────────────────────────────────────────────────

/-- Claim C4, amended: the cluster-status wait returns success exactly on
observing a `CREATE_COMPLETE` poll (after `n` in-progress polls it succeeds
on poll `n+1` having slept `n` fixed 30-second intervals), and it surfaces a
hard failure immediately — without further polling and without sleeping —
when a poll observes `CREATE_FAILED`.  (Rollback statuses are NOT a hard
failure: see the counterexample.) -/
theorem C4_wait_semantics :
    (∀ n : Nat, clusterStatusWait
        (List.replicate n (some "CREATE_IN_PROGRESS") ++ [some "CREATE_COMPLETE"])
        = { outcome := .success, polls := n + 1, sleeps := n }) ∧
    (∀ rest : List (Option String),
        clusterStatusWait (some "CREATE_FAILED" :: rest)
        = { outcome := .hardFailure, polls := 1, sleeps := 0 }) := by
  constructor
  · intro n
    have h := waitGo_inprogress n 0 0
    simpa [clusterStatusWait] using h
  · intro rest
    simp [clusterStatusWait, clusterStatusWaitGo]
    rw [show mapStackStatus "CREATE_FAILED" = "CREATE_FAILED" from rfl]
    simp

/-- Claim C4, counterexample: a poll observing the terminal rollback status
`ROLLBACK_COMPLETE` is mapped to `UNKNOWN`, so the wait does NOT surface a
hard failure — it sleeps and keeps polling (and can even go on to report
success on a later poll). -/
theorem C4_counterexample :
    clusterStatusWait [some "ROLLBACK_COMPLETE"]
      = { outcome := .stillPolling, polls := 1, sleeps := 1 } ∧
    clusterStatusWait [some "ROLLBACK_COMPLETE", some "CREATE_COMPLETE"]
      = { outcome := .success, polls := 2, sleeps := 1 } ∧
    mapStackStatus "ROLLBACK_COMPLETE" = "UNKNOWN" := by
  refine ⟨rfl, rfl, rfl⟩

-- ─────────────────────────────────────────────────────────────────────────
-- Claim C5
-- ─────────────────────────────────────────────────────────────────────────

/-- Claim C5, amended: `save()` refreshes `updated_at` and performs one
single, direct, complete write of the full serialized state to the state
file — it is NOT an atomic temp-file-plus-rename replacement, so a crash in
the middle of the write can leave a partially written state file. -/
theorem C5_save_single_direct_write (s : DeploymentState) (now : String) :
    StateManager.save s now
      = (saveS s now, [FsOp.write STATE_FILE (serializeState (saveS s now))]) ∧
    ¬ isAtomicReplacement (StateManager.save s now).2 STATE_FILE := by
  refine ⟨rfl, ?_⟩
  rintro ⟨tmp, content, hne, heq⟩
  simp [StateManager.save] at heq

/-- Claim C5, counterexample: the operation sequence of a `save()` call is a
single direct write, not the temp-file-plus-rename pattern the claim
asserts. -/
theorem C5_counterexample :
    (StateManager.save {} "t").2 = [FsOp.write STATE_FILE (serializeState (saveS {} "t"))] ∧
    ¬ isAtomicReplacement (StateManager.save {} "t").2 STATE_FILE := by
  refine ⟨rfl, ?_⟩
  rintro ⟨tmp, content, hne, heq⟩
  simp [StateManager.save] at heq

-- ─────────────────────────────────────────────────────────────────────────
-- Claim C10
-- ─────────────────────────────────────────────────────────────────────────

/-- Claim C10: `clear()` is total — because the unlink passes
`missing_ok=True` it succeeds whether or not the state file exists — and
always leaves the in-memory state equal to a fresh NOT_STARTED
`DeploymentState` with every output field empty; clearing twice yields the
same state as clearing once up to the `created_at` timestamp. -/
theorem C10_clear_total_idempotent (fs : Option String) (t1 t2 : String) :
    StateManager.clear fs t1 = .ok (none, freshState t1) ∧
    (freshState t1).stage = .NOT_STARTED ∧
    (freshState t1).pcluster_config_path = "" ∧
    (freshState t1).slurm_jwt_secret_arn = "" ∧
    (freshState t1).head_node_instance_id = "" ∧
    (freshState t1).lattice_service_endpoint = "" ∧
    (freshState t1).lattice_service_network_id = "" ∧
    (freshState t1).iam_role_arn = "" ∧
    (freshState t1).iam_external_id = "" ∧
    (freshState t1).cluster_id = "" ∧
    (freshState t1).error_message = "" ∧
    StateManager.clear none t2 = .ok (none, freshState t2) ∧
    { freshState t1 with created_at := t2 } = freshState t2 := by
  cases fs <;>
    refine ⟨rfl, rfl, rfl, rfl, rfl, rfl, rfl, rfl, rfl, rfl, rfl, rfl, rfl⟩

-- ─────────────────────────────────────────────────────────────────────────
-- Claim C9: lemmas about attribute access
-- ─────────────────────────────────────────────────────────────────────────

theorem getattrF_setattrF_ne (s : DeploymentState) (f g : FieldName)
    (v : PyVal) (h : f ≠ g) :
    getattrF (setattrF s f v) g = getattrF s g := by
  cases v <;> cases f <;> cases g <;> simp_all [setattrF, getattrF]

theorem getattrF_saveS (s : DeploymentState) (now : String) (g : FieldName)
    (h : g ≠ .updated_at) :
    getattrF (saveS s now) g = getattrF s g := by
  cases g <;> simp_all [saveS, getattrF]

theorem getattrF_foldl_frame (kwargs : List (String × PyVal)) (o : PyState)
    (g : FieldName) (h : ∀ kv ∈ kwargs, fieldNameOfString kv.1 ≠ some g) :
    getattrF (kwargs.foldl
      (fun acc kv => if pyHasattr kv.1 then pySetattr acc kv.1 kv.2 else acc)
      o).fields g = getattrF o.fields g := by
  induction kwargs generalizing o with
  | nil => rfl
  | cons kv rest ih =>
      rw [List.foldl_cons, ih _ (fun x hx => h x (List.mem_cons_of_mem _ hx))]
      by_cases hh : pyHasattr kv.1
      · simp only [hh, if_true]
        unfold pySetattr
        cases hf : fieldNameOfString kv.1 with
        | none => rfl
        | some f =>
            simp only
            refine getattrF_setattrF_ne _ _ _ _ ?_
            intro hfg
            exact h kv (List.mem_cons_self _ _) (by rw [hf, hfg])
      · simp [hh]

-- ─────────────────────────────────────────────────────────────────────────
-- Claim C9
-- ─────────────────────────────────────────────────────────────────────────

/-- Claim C9, amended: `update(**kwargs)` modifies only the attributes it
names — every dataclass field whose name is not among the keyword arguments
keeps its previous value, except `updated_at`, which the chained `save()`
refreshes; a keyword argument whose name is no attribute of the state object
at all is silently ignored (the call equals an empty update); but a keyword
argument naming a non-field class attribute, such as the method `to_dict`,
passes the `hasattr` guard and IS assigned, creating a shadowing instance
attribute. -/
theorem C9_update_frame (o : PyState) (kwargs : List (String × PyVal))
    (now : String) :
    (∀ g : FieldName, (∀ kv ∈ kwargs, fieldNameOfString kv.1 ≠ some g) →
        g ≠ .updated_at →
        getattrF (StateManager.update o kwargs now).1.fields g
          = getattrF o.fields g) ∧
    getattrF (StateManager.update o kwargs now).1.fields .updated_at
      = .str now ∧
    (∀ k v, pyHasattr k = false →
        StateManager.update o [(k, v)] now = StateManager.update o [] now) ∧
    (∀ v, (StateManager.update o [("to_dict", v)] now).1.extra
        = ("to_dict", v) :: o.extra.filter (fun p => p.1 ≠ "to_dict")) := by
  refine ⟨?_, ?_, ?_, ?_⟩
  · intro g hg hup
    unfold StateManager.update
    simp only [StateManager.save]
    rw [getattrF_saveS _ _ _ hup]
    exact getattrF_foldl_frame kwargs o g hg
  · unfold StateManager.update
    simp [StateManager.save, saveS, getattrF]
  · intro k v hk
    unfold StateManager.update
    simp [hk]
  · intro v
    unfold StateManager.update
    simp [StateManager.save, pyHasattr, pySetattr, fieldNameOfString,
          classMethodNames]

/-- Claim C9, witness: a concrete instantiation of the amended update-frame
theorem — updating `cluster_id` leaves `region` untouched, refreshes
`updated_at`, and a kwarg naming no attribute is dropped. -/
theorem C9_update_frame_witness :
    ((∀ kv ∈ [("cluster_id", PyVal.str "clus1")],
        fieldNameOfString kv.1 ≠ some FieldName.region) ∧
     FieldName.region ≠ FieldName.updated_at ∧
     pyHasattr "no_such_attribute" = false) ∧
    (getattrF (StateManager.update ⟨{ region := "us-east-1" }, []⟩
        [("cluster_id", PyVal.str "clus1")] "t1").1.fields .region
      = getattrF ({ region := "us-east-1" } : DeploymentState) .region ∧
     getattrF (StateManager.update ⟨{ region := "us-east-1" }, []⟩
        [("cluster_id", PyVal.str "clus1")] "t1").1.fields .updated_at
      = .str "t1" ∧
     StateManager.update ⟨{ region := "us-east-1" }, []⟩
        [("no_such_attribute", PyVal.str "x")] "t1"
      = StateManager.update ⟨{ region := "us-east-1" }, []⟩ [] "t1") := by
  have h := C9_update_frame ⟨{ region := "us-east-1" }, []⟩
    [("cluster_id", PyVal.str "clus1")] "t1"
  have h2 := C9_update_frame ⟨{ region := "us-east-1" }, []⟩
    [("no_such_attribute", PyVal.str "x")] "t1"
  exact ⟨⟨by decide, by decide, by decide⟩,
    h.1 .region (by decide) (by decide), h.2.1,
    (C9_update_frame ⟨{ region := "us-east-1" }, []⟩ [] "t1").2.2.1
      "no_such_attribute" (PyVal.str "x") (by decide)⟩

/-- Claim C9, counterexample: the keyword argument `to_dict` names a
non-existent FIELD, yet it is not ignored — `hasattr` is true for the
`to_dict` method, so `setattr` creates a new shadowing instance attribute,
contradicting "silently ignored rather than raising or creating a new
attribute". -/
theorem C9_counterexample :
    (fieldNameOfString "to_dict" = none) ∧
    (StateManager.update ⟨{}, []⟩ [("to_dict", PyVal.str "x")] "t").1
      ≠ (StateManager.update ⟨{}, []⟩ [] "t").1 ∧
    (StateManager.update ⟨{}, []⟩ [("to_dict", PyVal.str "x")] "t").1.extra
      = [("to_dict", PyVal.str "x")] := by
  refine ⟨rfl, by decide, rfl⟩

-- ─────────────────────────────────────────────────────────────────────────
-- Stage-write lemmas: every handler only writes stages strictly forward
-- ─────────────────────────────────────────────────────────────────────────

theorem stageWrites_register (env : Env) (dry_run : Bool) (s : DeploymentState) :
    stageWrites (Orchestrator.runStageRegister env dry_run s).trace
      = [DeploymentStage.COMPLETE] := by
  unfold Orchestrator.runStageRegister
  repeat' split
  all_goals simp [stageWrites]

theorem incFromB_events (env : Env) (dry_run : Bool) (s : DeploymentState) :
    incFromB 7 (stageWrites (Orchestrator.runStageEvents env dry_run s).trace)
      = true := by
  unfold Orchestrator.runStageEvents
  repeat' split
  all_goals
    simp [thenRun, stageWrites_append, stageWrites, stageWrites_register,
          incFromB, stageIndex]

theorem incFromB_verify (env : Env) (dry_run : Bool) (s : DeploymentState) :
    incFromB 6 (stageWrites (Orchestrator.runStage3Verify env dry_run s).trace)
      = true := by
  unfold Orchestrator.runStage3Verify
  repeat' split
  all_goals
    simp [thenRun, stageWrites_append, stageWrites, incFromB, stageIndex]
  all_goals
    exact incFromB_mono (by omega) _ (incFromB_events env dry_run _)

theorem incFromB_configure (env : Env) (dry_run : Bool) (s : DeploymentState) :
    incFromB 5 (stageWrites (Orchestrator.runStage3Configure env dry_run s).trace)
      = true := by
  unfold Orchestrator.runStage3Configure
  cases dry_run with
  | true => simp [stageWrites, incFromB, stageIndex]
  | false =>
      cases hj : env.onboarding.slurm_jwt_secret_arn with
      | none =>
          simp [hj, thenRun, stageWrites_append, stageWrites, incFromB, stageIndex]
          exact incFromB_mono (by omega) _ (incFromB_verify env false _)
      | some j =>
          by_cases hjs : j = ""
          · simp [hj, hjs, thenRun, stageWrites_append, stageWrites, incFromB,
                  stageIndex]
            exact incFromB_mono (by omega) _ (incFromB_verify env false _)
          · by_cases hh : s.head_node_instance_id = ""
            · simp [hj, hjs, hh, thenRun, stageWrites_append, stageWrites,
                    incFromB, stageIndex]
              exact incFromB_mono (by omega) _ (incFromB_verify env false _)
            · by_cases hssm : env.ssmSetupOk
              · simp [hj, hjs, hh, hssm, thenRun, stageWrites_append,
                      stageWrites, incFromB, stageIndex]
                exact incFromB_mono (by omega) _ (incFromB_verify env false _)
              · simp [hj, hjs, hh, hssm, stageWrites, incFromB, stageIndex]

theorem incFromB_connect (env : Env) (dry_run : Bool) (s : DeploymentState) :
    incFromB 4 (stageWrites (Orchestrator.runStage3Connect env dry_run s).trace)
      = true := by
  unfold Orchestrator.runStage3Connect
  cases dry_run with
  | true => simp [stageWrites, incFromB, stageIndex]
  | false =>
      by_cases ha : env.applyConnectivityOk
      · simp [ha, thenRun, stageWrites_append, stageWrites, incFromB, stageIndex]
        exact incFromB_mono (by omega) _ (incFromB_configure env false _)
      · simp [ha, stageWrites, incFromB, stageIndex]

theorem stageWrites_replicate_poll (n : Nat) :
    stageWrites (List.replicate n Act.pollClusterStatus) = [] := by
  induction n with
  | zero => rfl
  | succ k ih => simp [List.replicate_succ, stageWrites, ih]

theorem incFromB_wait (env : Env) (s : DeploymentState) :
    incFromB 2 (stageWrites (Orchestrator.runStage2Wait env s).trace)
      = true := by
  unfold Orchestrator.runStage2Wait
  cases hw : (clusterStatusWait env.waitObs).outcome with
  | success =>
      simp [hw, thenRun, stageWrites_append, stageWrites,
            stageWrites_replicate_poll, incFromB, stageIndex]
      exact incFromB_mono (by omega) _ (incFromB_connect env false _)
  | hardFailure =>
      simp [hw, stageWrites_append, stageWrites, stageWrites_replicate_poll,
            incFromB, stageIndex]
  | stillPolling =>
      simp [hw, stageWrites_replicate_poll, incFromB]

theorem incFromB_create (env : Env) (s : DeploymentState) :
    incFromB 2 (stageWrites (Orchestrator.runStage2Create env s).trace)
      = true := by
  unfold Orchestrator.runStage2Create
  by_cases hc : s.pcluster_config_path = ""
  · simp [hc, stageWrites, incFromB]
  · have hcmd : ∀ res : CreateCmdResult, env.createResult = res →
        incFromB 2 (stageWrites (match res with
          | CreateCmdResult.cmdOk =>
              thenRun [.describeStacks,
                       .pclusterCreate s.cluster_name s.pcluster_config_path]
                (Orchestrator.runStage2Wait env s)
          | CreateCmdResult.errAlreadyExists =>
              thenRun [.describeStacks,
                       .pclusterCreate s.cluster_name s.pcluster_config_path]
                (Orchestrator.runStage2Wait env s)
          | CreateCmdResult.errOther stderr =>
              { outcome := .failure,
                state := setFailedS s ("pcluster create failed: " ++ stderr) env.now,
                trace := [.describeStacks,
                          .pclusterCreate s.cluster_name s.pcluster_config_path,
                          .setFailedPersist ("pcluster create failed: " ++ stderr)] }).trace)
          = true := by
      intro res _
      cases res with
      | cmdOk =>
          simp [thenRun, stageWrites_append, stageWrites]
          exact incFromB_wait env s
      | errAlreadyExists =>
          simp [thenRun, stageWrites_append, stageWrites]
          exact incFromB_wait env s
      | errOther stderr => simp [stageWrites, incFromB, stageIndex]
    cases he : env.existingStack with
    | none =>
        simp only [hc, if_false, he]
        cases hr : env.createResult <;>
          simpa [hr] using hcmd _ hr
    | some raw =>
        by_cases m1 : mapStackStatus raw = "CREATE_COMPLETE"
        · simp [hc, he, m1, thenRun, stageWrites_append, stageWrites, incFromB,
                stageIndex]
          exact incFromB_mono (by omega) _ (incFromB_connect env false _)
        · by_cases m2 : mapStackStatus raw = "CREATE_IN_PROGRESS" ∨
              mapStackStatus raw = "CREATING"
          · simp [hc, he, m1, m2, thenRun, stageWrites_append, stageWrites]
            exact incFromB_wait env s
          · by_cases m3 : mapStackStatus raw = "CREATE_FAILED"
            · simp [hc, he, m1, m2, m3, stageWrites, incFromB, stageIndex]
            · simp only [hc, if_false, he, m1, m2, m3]
              cases hr : env.createResult <;>
                simpa [hr, m1, m2, m3] using hcmd _ hr

theorem incFromB_stage1 (env : Env) (dry_run : Bool) (s : DeploymentState) :
    incFromB 1 (stageWrites (Orchestrator.runStage1 env dry_run s).trace)
      = true := by
  unfold Orchestrator.runStage1
  by_cases hs : s.scenario = "new"
  · cases dry_run with
    | true => simp [hs, stageWrites, incFromB, stageIndex]
    | false =>
        by_cases hi : env.tofuInitOk
        · by_cases hp : env.applyParallelclusterOk
          · simp [hs, hi, hp, thenRun, stageWrites_append, stageWrites,
                  incFromB, stageIndex]
            exact incFromB_mono (by omega) _ (incFromB_create env _)
          · simp [hs, hi, hp, stageWrites, incFromB, stageIndex]
        · simp [hs, hi, stageWrites, incFromB, stageIndex]
  · cases dry_run with
    | true => simp [hs, stageWrites, incFromB, stageIndex]
    | false =>
        by_cases hi : env.tofuInitOk
        · simp [hs, hi, thenRun, stageWrites_append, stageWrites, incFromB,
                stageIndex]
          exact incFromB_mono (by omega) _ (incFromB_connect env false _)
        · simp [hs, hi, stageWrites, incFromB, stageIndex]

-- ─────────────────────────────────────────────────────────────────────────
-- No handler downstream of cluster creation ever issues the create action
-- ─────────────────────────────────────────────────────────────────────────

theorem noCreateB_register (env : Env) (dry_run : Bool) (s : DeploymentState) :
    noCreateB (Orchestrator.runStageRegister env dry_run s).trace = true := by
  unfold Orchestrator.runStageRegister
  repeat' split
  all_goals simp [noCreateB, isPClusterCreate]

theorem noCreateB_events (env : Env) (dry_run : Bool) (s : DeploymentState) :
    noCreateB (Orchestrator.runStageEvents env dry_run s).trace = true := by
  unfold Orchestrator.runStageEvents
  repeat' split
  all_goals
    simp [thenRun, noCreateB_append, noCreateB, isPClusterCreate]
  all_goals
    have h := noCreateB_register env dry_run
      (setStageS s .STAGE_4A_REGISTER env.now)
    simpa [noCreateB, isPClusterCreate] using h

theorem noCreateB_verify (env : Env) (dry_run : Bool) (s : DeploymentState) :
    noCreateB (Orchestrator.runStage3Verify env dry_run s).trace = true := by
  unfold Orchestrator.runStage3Verify
  repeat' split
  all_goals
    simp [thenRun, noCreateB_append, noCreateB, isPClusterCreate]
  all_goals
    have h := noCreateB_events env dry_run
      (setStageS s .STAGE_3A_EVENTS env.now)
    simpa [noCreateB, isPClusterCreate] using h

theorem noCreateB_configure (env : Env) (dry_run : Bool) (s : DeploymentState) :
    noCreateB (Orchestrator.runStage3Configure env dry_run s).trace = true := by
  unfold Orchestrator.runStage3Configure
  cases dry_run with
  | true => simp [noCreateB, isPClusterCreate]
  | false =>
      cases hj : env.onboarding.slurm_jwt_secret_arn with
      | none =>
          simp [hj, thenRun, noCreateB_append, noCreateB, isPClusterCreate]
          have h := noCreateB_verify env false
            (setStageS s .STAGE_2C_VERIFY_SLURMRESTD env.now)
          simpa [noCreateB, isPClusterCreate] using h
      | some j =>
          by_cases hjs : j = "" <;> by_cases hh : s.head_node_instance_id = "" <;>
            by_cases hssm : env.ssmSetupOk <;>
            simp [hj, hjs, hh, hssm, thenRun, noCreateB_append, noCreateB,
                  isPClusterCreate] <;>
            · have h := noCreateB_verify env false
                (setStageS s .STAGE_2C_VERIFY_SLURMRESTD env.now)
              simpa [noCreateB, isPClusterCreate] using h

theorem noCreateB_connect (env : Env) (dry_run : Bool) (s : DeploymentState) :
    noCreateB (Orchestrator.runStage3Connect env dry_run s).trace = true := by
  unfold Orchestrator.runStage3Connect
  cases dry_run with
  | true => simp [noCreateB, isPClusterCreate]
  | false =>
      by_cases ha : env.applyConnectivityOk
      · simp [ha, thenRun, noCreateB_append, noCreateB, isPClusterCreate]
        have h := noCreateB_configure env false
          (setStageS (saveS { s with
            lattice_service_endpoint := env.onboarding.lattice_service_endpoint,
            lattice_service_network_id := env.onboarding.lattice_service_network_id,
            iam_role_arn := env.onboarding.role_arn,
            iam_external_id := env.onboarding.external_id } env.now)
            .STAGE_2B_CONFIGURE_SLURMRESTD env.now)
        simpa [noCreateB, isPClusterCreate] using h
      · simp [ha, noCreateB, isPClusterCreate]

-- ─────────────────────────────────────────────────────────────────────────
-- Frame lemmas: no handler after CONNECT rewrites the connectivity outputs
-- ─────────────────────────────────────────────────────────────────────────

theorem connectOutputsEq_refl (a : DeploymentState) : connectOutputsEq a a :=
  ⟨rfl, rfl, rfl, rfl, rfl⟩

theorem connectOutputsEq_trans {a b c : DeploymentState}
    (h1 : connectOutputsEq a b) (h2 : connectOutputsEq b c) :
    connectOutputsEq a c := by
  obtain ⟨x1, x2, x3, x4, x5⟩ := h1
  obtain ⟨y1, y2, y3, y4, y5⟩ := h2
  exact ⟨x1.trans y1, x2.trans y2, x3.trans y3, x4.trans y4, x5.trans y5⟩

theorem connectOutputsEq_setStageS (s : DeploymentState)
    (st : DeploymentStage) (now : String) :
    connectOutputsEq (setStageS s st now) s := ⟨rfl, rfl, rfl, rfl, rfl⟩

theorem connectOutputsEq_setFailedS (s : DeploymentState)
    (msg now : String) :
    connectOutputsEq (setFailedS s msg now) s := ⟨rfl, rfl, rfl, rfl, rfl⟩

theorem frame_register (env : Env) (dry_run : Bool) (s : DeploymentState) :
    connectOutputsEq (Orchestrator.runStageRegister env dry_run s).state s := by
  unfold Orchestrator.runStageRegister
  repeat' split
  all_goals exact ⟨rfl, rfl, rfl, rfl, rfl⟩

theorem frame_events (env : Env) (dry_run : Bool) (s : DeploymentState) :
    connectOutputsEq (Orchestrator.runStageEvents env dry_run s).state s := by
  unfold Orchestrator.runStageEvents
  repeat' split
  all_goals
    first
      | exact connectOutputsEq_trans (frame_register env dry_run _)
          (connectOutputsEq_setStageS s _ env.now)
      | exact ⟨rfl, rfl, rfl, rfl, rfl⟩

theorem frame_verify (env : Env) (dry_run : Bool) (s : DeploymentState) :
    connectOutputsEq (Orchestrator.runStage3Verify env dry_run s).state s := by
  unfold Orchestrator.runStage3Verify
  repeat' split
  all_goals
    first
      | exact connectOutputsEq_trans (frame_events env dry_run _)
          (connectOutputsEq_setStageS s _ env.now)
      | exact ⟨rfl, rfl, rfl, rfl, rfl⟩

theorem frame_configure (env : Env) (dry_run : Bool) (s : DeploymentState) :
    connectOutputsEq (Orchestrator.runStage3Configure env dry_run s).state s := by
  unfold Orchestrator.runStage3Configure
  cases dry_run with
  | true => exact ⟨rfl, rfl, rfl, rfl, rfl⟩
  | false =>
      have chain : connectOutputsEq
          (Orchestrator.runStage3Verify env false
            (setStageS s .STAGE_2C_VERIFY_SLURMRESTD env.now)).state s :=
        connectOutputsEq_trans (frame_verify env false _)
          (connectOutputsEq_setStageS s _ env.now)
      cases hj : env.onboarding.slurm_jwt_secret_arn with
      | none => simpa [hj, thenRun] using chain
      | some j =>
          by_cases hjs : j = ""
          · simpa [hj, hjs, thenRun] using chain
          · by_cases hh : s.head_node_instance_id = ""
            · simpa [hj, hjs, hh, thenRun] using chain
            · by_cases hssm : env.ssmSetupOk
              · simpa [hj, hjs, hh, hssm, thenRun] using chain
              · simpa [hj, hjs, hh, hssm] using
                  connectOutputsEq_setFailedS s "slurmrestd configuration failed" env.now

-- ─────────────────────────────────────────────────────────────────────────
-- Claim C1
-- ─────────────────────────────────────────────────────────────────────────

/-- Claim C1: whenever the idempotency probe of the cluster-creation stage
reports an existing cluster in the terminal `CREATE_COMPLETE` status, the
stage never invokes the mutating `pcluster create-cluster` action anywhere
in the ensuing run; it persists the advance to `1c_pcluster_complete` first
and proceeds to the connectivity stage, whose result it returns. -/
theorem C1_idempotent_create (env : Env) (s : DeploymentState) (raw : String)
    (hcfg : s.pcluster_config_path ≠ "")
    (hprobe : env.existingStack = some raw)
    (hcc : mapStackStatus raw = "CREATE_COMPLETE") :
    noCreateB (Orchestrator.runStage2Create env s).trace = true ∧
    (Orchestrator.runStage2Create env s).trace
      = .describeStacks :: .setStagePersist .STAGE_1C_PCLUSTER_COMPLETE ::
        (Orchestrator.runStage3Connect env false
          (setStageS s .STAGE_1C_PCLUSTER_COMPLETE env.now)).trace ∧
    (Orchestrator.runStage2Create env s).outcome
      = (Orchestrator.runStage3Connect env false
          (setStageS s .STAGE_1C_PCLUSTER_COMPLETE env.now)).outcome ∧
    (Orchestrator.runStage2Create env s).state
      = (Orchestrator.runStage3Connect env false
          (setStageS s .STAGE_1C_PCLUSTER_COMPLETE env.now)).state := by
  have hred : Orchestrator.runStage2Create env s
      = thenRun [.describeStacks, .setStagePersist .STAGE_1C_PCLUSTER_COMPLETE]
          (Orchestrator.runStage3Connect env false
            (setStageS s .STAGE_1C_PCLUSTER_COMPLETE env.now)) := by
    unfold Orchestrator.runStage2Create
    rw [hprobe]
    simp [hcfg, hcc]
  rw [hred]
  refine ⟨?_, rfl, rfl, rfl⟩
  have h := noCreateB_connect env false
    (setStageS s .STAGE_1C_PCLUSTER_COMPLETE env.now)
  simp only [thenRun, noCreateB_append, h, Bool.and_true]
  decide

/-- Claim C1, witness: a concrete state whose probe reports
`CREATE_COMPLETE` skips creation and chains to connectivity. -/
theorem C1_idempotent_create_witness :
    (sPendingCfg.pcluster_config_path ≠ "" ∧
     envProbeComplete.existingStack = some "CREATE_COMPLETE" ∧
     mapStackStatus "CREATE_COMPLETE" = "CREATE_COMPLETE") ∧
    (noCreateB (Orchestrator.runStage2Create envProbeComplete sPendingCfg).trace
        = true ∧
     (Orchestrator.runStage2Create envProbeComplete sPendingCfg).trace
      = .describeStacks :: .setStagePersist .STAGE_1C_PCLUSTER_COMPLETE ::
        (Orchestrator.runStage3Connect envProbeComplete false
          (setStageS sPendingCfg .STAGE_1C_PCLUSTER_COMPLETE
            envProbeComplete.now)).trace ∧
     (Orchestrator.runStage2Create envProbeComplete sPendingCfg).outcome
      = (Orchestrator.runStage3Connect envProbeComplete false
          (setStageS sPendingCfg .STAGE_1C_PCLUSTER_COMPLETE
            envProbeComplete.now)).outcome ∧
     (Orchestrator.runStage2Create envProbeComplete sPendingCfg).state
      = (Orchestrator.runStage3Connect envProbeComplete false
          (setStageS sPendingCfg .STAGE_1C_PCLUSTER_COMPLETE
            envProbeComplete.now)).state) :=
  ⟨⟨by decide, rfl, by decide⟩,
   C1_idempotent_create envProbeComplete sPendingCfg "CREATE_COMPLETE"
     (by decide) rfl (by decide)⟩

-- ─────────────────────────────────────────────────────────────────────────
-- Claim C3
-- ─────────────────────────────────────────────────────────────────────────

/-- Claim C3, amended: during a normal `run` (the FAILED→retry path and
`clear()` excluded), every durably persisted stage write moves strictly
forward in the enum ordering — the sequence of written stages, started from
the entry stage, is strictly increasing in stage index.  Forward skips of
more than one index do occur (see the counterexample), so the claim's "at
most one greater" does not hold, but the orchestrator never regresses. -/
theorem C3_forward_only (env : Env) (dry_run : Bool) (s : DeploymentState) :
    incFromB (stageIndex s.stage)
      (stageWrites (Orchestrator.run env dry_run s).trace) = true := by
  cases hs : s.stage
  · simpa [Orchestrator.run, hs, stageIndex] using
      incFromB_mono (show (0 : Nat) ≤ 1 by omega) _
        (incFromB_stage1 env dry_run s)
  · simpa [Orchestrator.run, hs, stageIndex] using incFromB_stage1 env dry_run s
  · simpa [Orchestrator.run, hs, stageIndex] using incFromB_create env s
  · simpa [Orchestrator.run, hs, stageIndex] using
      incFromB_mono (show (3 : Nat) ≤ 4 by omega) _
        (incFromB_connect env dry_run s)
  · simpa [Orchestrator.run, hs, stageIndex] using incFromB_connect env dry_run s
  · simpa [Orchestrator.run, hs, stageIndex] using
      incFromB_configure env dry_run s
  · simpa [Orchestrator.run, hs, stageIndex] using incFromB_verify env dry_run s
  · simpa [Orchestrator.run, hs, stageIndex] using incFromB_events env dry_run s
  · simp [Orchestrator.run, hs, stageIndex, stageWrites_register env dry_run s,
          incFromB]
  · simp [Orchestrator.run, hs, stageWrites, incFromB]
  · simp [Orchestrator.run, hs, stageWrites, incFromB]

/-- Claim C3, counterexample: re-entering at `1c_pcluster_complete` (dry
run), the first persisted transition jumps to `2b_configure_slurmrestd`,
whose index is TWO greater than the previously persisted stage — refuting
"at most one greater". -/
theorem C3_counterexample :
    stageWrites (Orchestrator.run {} true
        { stage := .STAGE_1C_PCLUSTER_COMPLETE }).trace
      = [.STAGE_2B_CONFIGURE_SLURMRESTD] ∧
    stageIndex .STAGE_2B_CONFIGURE_SLURMRESTD
      = stageIndex .STAGE_1C_PCLUSTER_COMPLETE + 2 ∧
    ¬ stageIndex .STAGE_2B_CONFIGURE_SLURMRESTD
      ≤ stageIndex .STAGE_1C_PCLUSTER_COMPLETE + 1 := by
  refine ⟨rfl, rfl, by decide⟩

-- ─────────────────────────────────────────────────────────────────────────
-- Claim C6
-- ─────────────────────────────────────────────────────────────────────────

/-- Claim C6, amended: stages other than registration persist FAILED with a
non-empty message and return failure when their action fails (shown for the
connectivity apply; `set_failed` always leaves FAILED with the given
message), but the REGISTRATION stage is the exception the claim missed: a
non-201 response or a request exception is only warned about — the stage
still persists COMPLETE, leaves `error_message` untouched, and returns
success. -/
theorem C6_failure_handling :
    (∀ (env : Env) (s : DeploymentState) (status : Nat) (cid : String),
        env.registerResponse = .resp status cid → status ≠ 201 →
        s.tenant_id ≠ "" →
        (Orchestrator.runStageRegister env false s).outcome = .success ∧
        (Orchestrator.runStageRegister env false s).state.stage = .COMPLETE ∧
        (Orchestrator.runStageRegister env false s).state.error_message
          = s.error_message) ∧
    (∀ (env : Env) (s : DeploymentState),
        env.registerResponse = .exc → s.tenant_id ≠ "" →
        (Orchestrator.runStageRegister env false s).outcome = .success ∧
        (Orchestrator.runStageRegister env false s).state.stage = .COMPLETE) ∧
    (∀ (env : Env) (s : DeploymentState),
        env.applyConnectivityOk = false →
        (Orchestrator.runStage3Connect env false s).outcome = .failure ∧
        (Orchestrator.runStage3Connect env false s).state.stage = .FAILED ∧
        (Orchestrator.runStage3Connect env false s).state.error_message
          = "tofu apply (connectivity) failed" ∧
        ("tofu apply (connectivity) failed" : String) ≠ "") ∧
    (∀ (s : DeploymentState) (msg now : String), msg ≠ "" →
        (setFailedS s msg now).stage = .FAILED ∧
        (setFailedS s msg now).error_message ≠ "") := by
  refine ⟨?_, ?_, ?_, ?_⟩
  · intro env s status cid hresp h201 htenant
    unfold Orchestrator.runStageRegister
    simp [htenant, hresp, h201, setStageS, saveS]
  · intro env s hresp htenant
    unfold Orchestrator.runStageRegister
    simp [htenant, hresp, setStageS, saveS]
  · intro env s ha
    unfold Orchestrator.runStage3Connect
    simp [ha, setFailedS, saveS]
  · intro s msg now hm
    refine ⟨rfl, ?_⟩
    simpa [setFailedS, saveS] using hm

/-- Claim C6, witness: a 500 registration response still completes
successfully, and a failed connectivity apply persists FAILED with its
non-empty message and returns failure. -/
theorem C6_failure_handling_witness :
    ((Orchestrator.runStageRegister envRegister500 false sRegisterTenant).outcome
        = .success ∧
     (Orchestrator.runStageRegister envRegister500 false
        sRegisterTenant).state.stage = .COMPLETE ∧
     (Orchestrator.runStageRegister envRegister500 false
        sRegisterTenant).state.error_message = sRegisterTenant.error_message) ∧
    ((Orchestrator.runStage3Connect envConnectFail false sConnectivity).outcome
        = .failure ∧
     (Orchestrator.runStage3Connect envConnectFail false
        sConnectivity).state.stage = .FAILED ∧
     (Orchestrator.runStage3Connect envConnectFail false
        sConnectivity).state.error_message = "tofu apply (connectivity) failed" ∧
     ("tofu apply (connectivity) failed" : String) ≠ "") :=
  ⟨C6_failure_handling.1 envRegister500 sRegisterTenant 500 "" rfl
     (by decide) (by decide),
   C6_failure_handling.2.2.1 envConnectFail sConnectivity rfl⟩

/-- Claim C6, counterexample: at the registration stage with a configured
tenant, an API response of 500 does NOT lead to `set_failed` — the stage
persists COMPLETE with an empty error message and reports success,
contradicting "leaves the persisted stage FAILED ... and returns failure". -/
theorem C6_counterexample :
    (Orchestrator.runStageRegister envRegister500 false sRegisterTenant).outcome
      = .success ∧
    (Orchestrator.runStageRegister envRegister500 false
       sRegisterTenant).state.stage = .COMPLETE ∧
    (Orchestrator.runStageRegister envRegister500 false
       sRegisterTenant).state.error_message = "" ∧
    (Orchestrator.runStageRegister envRegister500 false sRegisterTenant).trace
      = [.apiRegister "https://api.clusterra.cloud/v1/clusters/connect/ten_x",
         .setStagePersist .COMPLETE] := by
  refine ⟨rfl, rfl, rfl, rfl⟩

-- ─────────────────────────────────────────────────────────────────────────
-- Claim C7
-- ─────────────────────────────────────────────────────────────────────────

/-- Claim C7, amended: `stage == COMPLETE` by itself does not guarantee
non-empty registration output fields (see the counterexample); what the code
guarantees is that after a non-dry connectivity stage run that reached
COMPLETE, the four connectivity output fields hold exactly the captured tofu
onboarding outputs — hence they are non-empty whenever those outputs are
non-empty — and the head-node identifier is whatever the state already
held. -/
theorem C7_outputs_from_connect (env : Env) (s : DeploymentState)
    (h1 : env.onboarding.lattice_service_endpoint ≠ "")
    (h2 : env.onboarding.lattice_service_network_id ≠ "")
    (h3 : env.onboarding.role_arn ≠ "")
    (h4 : env.onboarding.external_id ≠ "")
    (hstage : (Orchestrator.runStage3Connect env false s).state.stage
        = .COMPLETE) :
    (Orchestrator.runStage3Connect env false s).state.lattice_service_endpoint
      ≠ "" ∧
    (Orchestrator.runStage3Connect env false s).state.lattice_service_network_id
      ≠ "" ∧
    (Orchestrator.runStage3Connect env false s).state.iam_role_arn ≠ "" ∧
    (Orchestrator.runStage3Connect env false s).state.iam_external_id ≠ "" ∧
    (Orchestrator.runStage3Connect env false s).state.head_node_instance_id
      = s.head_node_instance_id := by
  by_cases ha : env.applyConnectivityOk
  · have hred : Orchestrator.runStage3Connect env false s
        = thenRun [.tofuApply "connectivity", .updatePersist,
                   .setStagePersist .STAGE_2B_CONFIGURE_SLURMRESTD]
            (Orchestrator.runStage3Configure env false
              (setStageS (saveS { s with
                  lattice_service_endpoint :=
                    env.onboarding.lattice_service_endpoint,
                  lattice_service_network_id :=
                    env.onboarding.lattice_service_network_id,
                  iam_role_arn := env.onboarding.role_arn,
                  iam_external_id := env.onboarding.external_id } env.now)
                .STAGE_2B_CONFIGURE_SLURMRESTD env.now)) := by
      unfold Orchestrator.runStage3Connect
      simp [ha]
    rw [hred]
    have hframe := frame_configure env false
      (setStageS (saveS { s with
          lattice_service_endpoint := env.onboarding.lattice_service_endpoint,
          lattice_service_network_id :=
            env.onboarding.lattice_service_network_id,
          iam_role_arn := env.onboarding.role_arn,
          iam_external_id := env.onboarding.external_id } env.now)
        .STAGE_2B_CONFIGURE_SLURMRESTD env.now)
    obtain ⟨f1, f2, f3, f4, f5⟩ := hframe
    simp only [thenRun] at *
    rw [f1, f2, f3, f4, f5]
    exact ⟨h1, h2, h3, h4, rfl⟩
  · exfalso
    unfold Orchestrator.runStage3Connect at hstage
    simp [ha, setFailedS, saveS] at hstage

/-- Claim C7, witness: with all four connectivity onboarding outputs
non-empty, a run from the connectivity stage that reaches COMPLETE leaves
every connectivity output field non-empty. -/
theorem C7_outputs_from_connect_witness :
    (envGoodOutputs.onboarding.lattice_service_endpoint ≠ "" ∧
     envGoodOutputs.onboarding.lattice_service_network_id ≠ "" ∧
     envGoodOutputs.onboarding.role_arn ≠ "" ∧
     envGoodOutputs.onboarding.external_id ≠ "" ∧
     (Orchestrator.runStage3Connect envGoodOutputs false
        sConnectTenant).state.stage = .COMPLETE) ∧
    ((Orchestrator.runStage3Connect envGoodOutputs false
        sConnectTenant).state.lattice_service_endpoint ≠ "" ∧
     (Orchestrator.runStage3Connect envGoodOutputs false
        sConnectTenant).state.lattice_service_network_id ≠ "" ∧
     (Orchestrator.runStage3Connect envGoodOutputs false
        sConnectTenant).state.iam_role_arn ≠ "" ∧
     (Orchestrator.runStage3Connect envGoodOutputs false
        sConnectTenant).state.iam_external_id ≠ "" ∧
     (Orchestrator.runStage3Connect envGoodOutputs false
        sConnectTenant).state.head_node_instance_id
      = sConnectTenant.head_node_instance_id) :=
  ⟨⟨by decide, by decide, by decide, by decide, by decide⟩,
   C7_outputs_from_connect envGoodOutputs sConnectTenant (by decide)
     (by decide) (by decide) (by decide) (by decide)⟩

/-- Claim C7, counterexample: with a tenant configured (so registration is
NOT skipped) but empty tofu onboarding outputs, a full non-dry run from
`1c_pcluster_complete` reaches `stage == COMPLETE` with the registration
POST performed yet with empty service-endpoint/network/role/external-id and
head-node fields — refuting the claimed invariant. -/
theorem C7_counterexample :
    (Orchestrator.run envEmptyOutputs201 false sConnectTenant).state.stage
      = .COMPLETE ∧
    (Orchestrator.run envEmptyOutputs201 false
       sConnectTenant).state.tenant_id = "ten_x" ∧
    List.countP isApiRegister
      (Orchestrator.run envEmptyOutputs201 false sConnectTenant).trace = 1 ∧
    (Orchestrator.run envEmptyOutputs201 false
       sConnectTenant).state.lattice_service_endpoint = "" ∧
    (Orchestrator.run envEmptyOutputs201 false
       sConnectTenant).state.lattice_service_network_id = "" ∧
    (Orchestrator.run envEmptyOutputs201 false
       sConnectTenant).state.iam_role_arn = "" ∧
    (Orchestrator.run envEmptyOutputs201 false
       sConnectTenant).state.iam_external_id = "" ∧
    (Orchestrator.run envEmptyOutputs201 false
       sConnectTenant).state.head_node_instance_id = "" ∧
    (Orchestrator.run envEmptyOutputs201 false
       sConnectTenant).state.slurm_jwt_secret_arn = "" := by
  refine ⟨rfl, rfl, rfl, rfl, rfl, rfl, rfl, rfl, rfl⟩

-- ─────────────────────────────────────────────────────────────────────────
-- Claim C8
-- ─────────────────────────────────────────────────────────────────────────

/-- Claim C8, amended: when the daemon-configuration stage fails after
connectivity completed, NO compensating rollback runs at all — the stage
persists FAILED with its message and returns failure, performing neither a
service-network dissociation nor an infrastructure destroy; the only
teardown path in the repository is the separate uninstaller, whose destroy
phase is a single `tofu destroy` with no preceding dissociation action. -/
theorem C8_no_rollback (env : Env) (s : DeploymentState) (j : String)
    (hj : env.onboarding.slurm_jwt_secret_arn = some j) (hjne : j ≠ "")
    (hh : s.head_node_instance_id ≠ "") (hssm : env.ssmSetupOk = false) :
    (Orchestrator.runStage3Configure env false s).trace
      = [.ssmSetup, .setFailedPersist "slurmrestd configuration failed"] ∧
    (Orchestrator.runStage3Configure env false s).outcome = .failure ∧
    (Orchestrator.runStage3Configure env false s).state
      = setFailedS s "slurmrestd configuration failed" env.now ∧
    List.countP isDissociate
      (Orchestrator.runStage3Configure env false s).trace = 0 ∧
    List.countP isDestroy
      (Orchestrator.runStage3Configure env false s).trace = 0 ∧
    destroy_tofu_resources false = [.tofuDestroy] ∧
    List.countP isDissociate (destroy_tofu_resources false) = 0 := by
  have hred : Orchestrator.runStage3Configure env false s
      = { outcome := .failure,
          state := setFailedS s "slurmrestd configuration failed" env.now,
          trace := [.ssmSetup,
                    .setFailedPersist "slurmrestd configuration failed"] } := by
    unfold Orchestrator.runStage3Configure
    simp [hj, hjne, hh, hssm]
  rw [hred]
  exact ⟨rfl, rfl, rfl, rfl, rfl, rfl, rfl⟩

/-- Claim C8, witness: concrete daemon-configuration failure after a
completed connectivity stage — no dissociation, no destroy, just a FAILED
marker. -/
theorem C8_no_rollback_witness :
    (envSsmFail.onboarding.slurm_jwt_secret_arn = some "arn:jwt" ∧
     ("arn:jwt" : String) ≠ "" ∧
     sConfigureHead.head_node_instance_id ≠ "" ∧
     envSsmFail.ssmSetupOk = false) ∧
    ((Orchestrator.runStage3Configure envSsmFail false sConfigureHead).trace
      = [.ssmSetup, .setFailedPersist "slurmrestd configuration failed"] ∧
     (Orchestrator.runStage3Configure envSsmFail false sConfigureHead).outcome
      = .failure ∧
     (Orchestrator.runStage3Configure envSsmFail false sConfigureHead).state
      = setFailedS sConfigureHead "slurmrestd configuration failed"
          envSsmFail.now ∧
     List.countP isDissociate
       (Orchestrator.runStage3Configure envSsmFail false sConfigureHead).trace
      = 0 ∧
     List.countP isDestroy
       (Orchestrator.runStage3Configure envSsmFail false sConfigureHead).trace
      = 0 ∧
     destroy_tofu_resources false = [.tofuDestroy] ∧
     List.countP isDissociate (destroy_tofu_resources false) = 0) :=
  ⟨⟨rfl, by decide, by decide, rfl⟩,
   C8_no_rollback envSsmFail sConfigureHead "arn:jwt" rfl (by decide)
     (by decide) rfl⟩

/-- Claim C8, counterexample: the daemon-configuration failure path (with
connectivity already complete) performs zero dissociation actions and zero
destroy actions — not "each exactly once, in that order". -/
theorem C8_counterexample :
    (Orchestrator.runStage3Configure envSsmFail false sConfigureHead).trace
      = [.ssmSetup, .setFailedPersist "slurmrestd configuration failed"] ∧
    ¬ (List.countP isDissociate
         (Orchestrator.runStage3Configure envSsmFail false
           sConfigureHead).trace = 1 ∧
       List.countP isDestroy
         (Orchestrator.runStage3Configure envSsmFail false
           sConfigureHead).trace = 1) := by
  exact ⟨rfl, by decide⟩
